import Mathlib

/-!
Verification of the DetalFlowMobile streaming client.

The repository has two screen implementations that both drive the
frame-streaming protocol: `src/app/index.tsx` (the video-stream screen) and
`src/app/modal.tsx` (the older analysis screen).  Each screen is embedded as a
state record plus one Lean function per source function; the asynchronous
React/WebSocket callbacks become an event type with a `step` dispatcher, and a
`run` function folds an event trace from the initial component state.
-/

/-- `WebSocket.readyState` values. -/
inductive WsReadyState
  | connecting
  | opened
  | closing
  | closed
deriving DecidableEq

/-- The `Prediction` interface (index.tsx lines 17-22, modal.tsx lines 15-20).
Fields read off the inbound JSON may be absent (`undefined` in JS), hence
`Option`. -/
structure Prediction where
  predicted_class : Option String
  confidence : Option ℚ
  timestamp : String
deriving DecidableEq

/-- `ChatMessage = Prediction | SystemMessage` (index.tsx line 30). -/
inductive ChatMessage
  | prediction (p : Prediction)
  | system (message : Option String) (timestamp : String)
deriving DecidableEq

/-- An inbound WebSocket message after `JSON.parse`: the fields either screen
ever reads.  `none` models an absent field (`undefined`). -/
structure InMessage where
  type : Option String
  action : Option String
  msg_type : Option String
  message : Option String
  predicted_class : Option String
  confidence : Option ℚ
  frame_count : Option ℕ
deriving DecidableEq

/-- Result of `takePictureAsync`. -/
structure Photo where
  base64 : Option String
  width : ℕ
  height : ℕ
deriving DecidableEq

/-- The outbound wire messages either screen can send (index.tsx lines
228-248, 294-298, 310; modal.tsx lines 162-171, 195-198, 214). -/
inductive OutMessage
  | videoFrame (frame : String) (frame_number : ℕ) (timestamp : ℕ)
      (width : ℕ) (height : ℕ)
  | ack (frame_count : ℕ) (fps : ℕ)
  | startVideoStreamCmd (target_fps : ℕ) (predict_every_frames : ℕ)
  | stopVideoStreamCmd
  | frameOnly (frame : String)
  | ackNoFps (frame_count : ℕ)
  | startCmd (predict_every_frames : ℕ)
  | stopCmd
deriving DecidableEq

/-- JS `a || b` for a possibly-undefined string `a`: `undefined` and the empty
string are falsy. -/
def truthyOr (a : Option String) (b : String) : String :=
  match a with
  | some s => if s = "" then b else s
  | none => b

/-- JS string rendering of a possibly-undefined value under concatenation
(`'x' + undefined` is `"xundefined"`). -/
def jsStr (a : Option String) : String :=
  match a with
  | some s => s
  | none => "undefined"

/-- JS `toLowerCase()` on the ASCII discriminator strings, written as a
structural map over the character list so concrete values evaluate by kernel
reduction. -/
def lowerStr (s : String) : String := ⟨s.data.map Char.toLower⟩

/-- The history append both screens use:
`prev => [...prev.slice(-11), m]` (index.tsx lines 147, 157, 173;
modal.tsx lines 111, 122).  `slice(-11)` keeps the last 11 entries. -/
def appendChat (h : List ChatMessage) (m : ChatMessage) : List ChatMessage :=
  h.drop (h.length - 11) ++ [m]

namespace Index

/-- The mutable state of the `DentalAIScreen` component in index.tsx:
the `useState` hooks (lines 33-42) and the `useRef` cells (lines 44-52).
`captureInterval` is `captureIntervalRef`: `some p` when the repeating
capture timer is installed with period `p` ms, `none` when it is cleared.
`wsReadyState` is `wsRef.current?.readyState` (`none` when `wsRef` is null).
-/
structure State where
  analysisActive : Bool
  chatHistory : List ChatMessage
  totalPredictions : ℕ
  currentPrediction : Option Prediction
  status : String
  isConnected : Bool
  streamFPS : ℕ
  frameCount : ℕ
  captureInterval : Option ℚ
  errorAlertShown : Bool
  isStreaming : Bool
  lastFrameTime : ℕ
  isMounted : Bool
  hasCamera : Bool
  wsReadyState : Option WsReadyState
deriving DecidableEq

/-- Component state after mount: the `useState` initial values plus the
mount effect (lines 54-62), which sets `isMountedRef` and opens the socket
(so a WebSocket in state CONNECTING exists). -/
def initState : State where
  analysisActive := false
  chatHistory := []
  totalPredictions := 0
  currentPrediction := none
  status := "🔄 Initializing..."
  isConnected := false
  streamFPS := 5
  frameCount := 0
  captureInterval := none
  errorAlertShown := false
  isStreaming := false
  lastFrameTime := 0
  isMounted := true
  hasCamera := true
  wsReadyState := some WsReadyState.connecting

/-- `const frameInterval = 100 / streamFPS;` (index.tsx line 201), the
minimum number of milliseconds between accepted captures. -/
def frameInterval (fps : ℕ) : ℚ := 100 / fps

/-- Modelled from the spec: the minimum inter-frame interval the spec
prescribes for the frame scheduler, `1000/targetFps` milliseconds.  Stated
here only to compare against `frameInterval`, which is what the source
computes. -/
def specFrameInterval (fps : ℕ) : ℚ := 1000 / fps

/-- The tick guard `now - lastFrameTimeRef.current < frameInterval`
(index.tsx line 212), written in the equivalent integer form
`(now - last) * fps < 100`: for integer timestamps and positive `fps` this
holds exactly when `now - last < 100 / fps` over the rationals (see
`tooSoon_iff_lt_frameInterval`), and the integer form evaluates by kernel
reduction. -/
def tooSoon (now last fps : ℕ) : Bool := (now - last) * fps < 100

/-- `ws.onopen` (index.tsx lines 102-106); the socket's `readyState` is now
OPEN. -/
def wsOnOpen (s : State) : State :=
  { s with
    isConnected := true
    status := "✅ Connected to AI Server"
    wsReadyState := some WsReadyState.opened }

/-- `ws.onclose` (index.tsx lines 117-122); the socket's `readyState` is now
CLOSED.  The handler updates connection state, status and `analysisActive`
only; the capture timer and `isStreamingRef` are left untouched. -/
def wsOnClose (s : State) : State :=
  { s with
    isConnected := false
    status := "⚠️ Disconnected - Tap to retry"
    analysisActive := false
    wsReadyState := some WsReadyState.closed }

/-- `ws.onerror` (index.tsx lines 124-127). -/
def wsOnError (s : State) : State :=
  { s with status := "❌ Connection failed" }

/-- The discriminator
`(data.type || data.action || data.msg_type || '').toString().toLowerCase()`
(index.tsx line 135). -/
def msgTypeOf (d : InMessage) : String :=
  lowerStr (truthyOr d.type (truthyOr d.action (truthyOr d.msg_type "")))

/-- `handleWebSocketMessage` (index.tsx lines 134-182); `nowStr` is the value
of `new Date().toLocaleTimeString()` at dispatch time. -/
def handleWebSocketMessage (s : State) (d : InMessage) (nowStr : String) :
    State :=
  let mt := msgTypeOf d
  if mt = "prediction" then
    let p : Prediction :=
      { predicted_class := d.predicted_class
        confidence := d.confidence
        timestamp := nowStr }
    { s with
      currentPrediction := some p
      chatHistory := appendChat s.chatHistory (ChatMessage.prediction p)
      totalPredictions := s.totalPredictions + 1 }
  else if mt = "status" then
    { s with
      chatHistory :=
        appendChat s.chatHistory (ChatMessage.system d.message nowStr) }
  else if mt = "ack" then
    s
  else if mt = "error" then
    { s with
      status := "❌ " ++ truthyOr d.message "Analysis error"
      chatHistory :=
        appendChat s.chatHistory
          (ChatMessage.system (some (truthyOr d.message "Analysis error"))
            nowStr)
      errorAlertShown := true }
  else
    s

/-- `startVideoStream` (index.tsx lines 192-266): after the camera/socket
guard, set the streaming refs and install the repeating capture timer with
period `frameInterval / 2`. -/
def startVideoStream (s : State) : State :=
  if ¬ s.hasCamera ∨ s.wsReadyState ≠ some WsReadyState.opened then s
  else
    { s with
      isStreaming := true
      frameCount := 0
      lastFrameTime := 0
      captureInterval := some (frameInterval s.streamFPS / 2) }

/-- One invocation of the `captureFrame` closure created by
`startVideoStream` (index.tsx lines 203-257).  `now` is `Date.now()`;
`photo = none` models `takePictureAsync` throwing (caught at line 251) and
`photo.base64 = none` a result with no image data: both leave the state
unchanged.  The send, the counter update and the ack are all gated on
`wsRef.current?.readyState === WebSocket.OPEN`, evaluated when the capture
completes. -/
def captureFrame (s : State) (now : ℕ) (photo : Option Photo) :
    State × List OutMessage :=
  if ¬ s.isMounted ∨ ¬ s.isStreaming ∨ ¬ s.hasCamera then (s, [])
  else if tooSoon now s.lastFrameTime s.streamFPS then (s, [])
  else
    match photo with
    | none => (s, [])
    | some ph =>
      match ph.base64 with
      | none => (s, [])
      | some b64 =>
        if s.wsReadyState = some WsReadyState.opened then
          let fc := s.frameCount + 1
          ({ s with
              frameCount := fc
              lastFrameTime := now
              status :=
                if fc % 15 = 0 then
                  "🎥 Streaming (" ++ toString s.streamFPS ++ " FPS) - "
                    ++ toString fc ++ " frames"
                else s.status },
            OutMessage.videoFrame b64 fc now ph.width ph.height ::
              (if fc % 10 = 0 then [OutMessage.ack fc s.streamFPS] else []))
        else (s, [])

/-- `stopVideoStream` (index.tsx lines 268-275). -/
def stopVideoStream (s : State) : State :=
  { s with
    isStreaming := false
    captureInterval :=
      if s.captureInterval.isSome then none else s.captureInterval
    lastFrameTime := 0 }

/-- `startAnalysis` (index.tsx lines 277-300).  When not connected the source
re-runs `connectWebSocket` and schedules a retry after 1000 ms without
mutating any session state, so that branch is the identity here.  The
`setTimeout(() => startVideoStream(), 100)` callback is delivered as a
separate `Event.delayedStartStream`. -/
def startAnalysis (s : State) : State × List OutMessage :=
  if ¬ s.isConnected then (s, [])
  else
    ({ s with
        analysisActive := true
        status :=
          "🎥 Starting Video Stream (" ++ toString s.streamFPS ++ " FPS)..."
        currentPrediction := none },
      if s.wsReadyState = some WsReadyState.opened then
        [OutMessage.startVideoStreamCmd s.streamFPS 1]
      else [])

/-- `stopAnalysis` (index.tsx lines 302-312). -/
def stopAnalysis (s : State) : State × List OutMessage :=
  (stopVideoStream
    { s with
      analysisActive := false
      status := "⏸️ Ready for Analysis"
      currentPrediction := none },
    if s.wsReadyState = some WsReadyState.opened then
      [OutMessage.stopVideoStreamCmd]
    else [])

/-- `const fpsOptions = [3, 5, 8, 10];` (index.tsx line 315). -/
def fpsOptions : List ℕ := [3, 5, 8, 10]

/-- `toggleStreamFPS` (index.tsx lines 314-330): the synchronous part.  JS
`indexOf` yields -1 when the value is absent; the 200 ms delayed restart is
delivered as a separate `Event.delayedStartStream`. -/
def toggleStreamFPS (s : State) : State :=
  let currentIndex : ℤ :=
    if s.streamFPS ∈ fpsOptions then fpsOptions.indexOf s.streamFPS else -1
  let nextIndex := ((currentIndex + 1) % (fpsOptions.length : ℤ)).toNat
  let newFPS := fpsOptions.getD nextIndex 0
  if s.analysisActive then
    stopVideoStream
      { s with
        streamFPS := newFPS
        status := "🔄 Switching to " ++ toString newFPS ++ " FPS..." }
  else
    { s with streamFPS := newFPS }

/-- `clearHistory` (index.tsx lines 336-340). -/
def clearHistory (s : State) : State :=
  { s with
    chatHistory := []
    totalPredictions := 0
    currentPrediction := none }

/-- The callbacks that can fire on the index.tsx screen: socket events,
inbound messages, user intents, the deferred `startVideoStream` callbacks,
and ticks of the repeating capture timer. -/
inductive Event
  | wsOpen
  | wsClose
  | wsError
  | wsMessage (d : InMessage) (nowStr : String)
  | userStart
  | delayedStartStream
  | userStop
  | tick (now : ℕ) (photo : Option Photo)
  | userToggleFps
  | userClearHistory
deriving DecidableEq

/-- Dispatch one event to the handler the source installs for it.  A `tick`
runs `captureFrame` only while the repeating timer is installed. -/
def step (s : State) (e : Event) : State × List OutMessage :=
  match e with
  | Event.wsOpen => (wsOnOpen s, [])
  | Event.wsClose => (wsOnClose s, [])
  | Event.wsError => (wsOnError s, [])
  | Event.wsMessage d t => (handleWebSocketMessage s d t, [])
  | Event.userStart => startAnalysis s
  | Event.delayedStartStream => (startVideoStream s, [])
  | Event.userStop => stopAnalysis s
  | Event.tick now photo =>
      if s.captureInterval.isSome then captureFrame s now photo else (s, [])
  | Event.userToggleFps => (toggleStreamFPS s, [])
  | Event.userClearHistory => (clearHistory s, [])

/-- Run a trace of events, collecting every outbound message in order. -/
def run (s : State) : List Event → State × List OutMessage
  | [] => (s, [])
  | e :: es =>
    let r := step s e
    let rest := run r.1 es
    (rest.1, r.2 ++ rest.2)

/-- A state the screen can actually be in after some trace of events. -/
def Reachable (s : State) : Prop := ∃ es, (run initState es).1 = s

end Index

namespace Modal

/-- The mutable state of the `DentalAIScreen` component in modal.tsx: the
`useState` hooks (lines 31-38) and the `useRef` cells (lines 40-43).
`captureInterval` is `captureIntervalRef`: `some p` when the repeating
capture timer is installed with period `p` ms (the source always uses 500). -/
structure State where
  analysisActive : Bool
  chatHistory : List ChatMessage
  totalPredictions : ℕ
  currentPrediction : Option Prediction
  status : String
  isConnected : Bool
  frameCount : ℕ
  captureInterval : Option ℕ
  hasCamera : Bool
  wsReadyState : Option WsReadyState
deriving DecidableEq

/-- Component state after mount: `useState` initial values plus the mount
effect (lines 46-51) opening the socket. -/
def initState : State where
  analysisActive := false
  chatHistory := []
  totalPredictions := 0
  currentPrediction := none
  status := "🔄 Initializing..."
  isConnected := false
  frameCount := 0
  captureInterval := none
  hasCamera := true
  wsReadyState := some WsReadyState.connecting

/-- `ws.onopen` (modal.tsx lines 68-72). -/
def wsOnOpen (s : State) : State :=
  { s with
    isConnected := true
    status := "✅ Connected to AI Server"
    wsReadyState := some WsReadyState.opened }

/-- `ws.onclose` (modal.tsx lines 83-88). -/
def wsOnClose (s : State) : State :=
  { s with
    isConnected := false
    status := "⚠️ Disconnected - Tap to retry"
    analysisActive := false
    wsReadyState := some WsReadyState.closed }

/-- `ws.onerror` (modal.tsx lines 90-93). -/
def wsOnError (s : State) : State :=
  { s with status := "❌ Connection failed" }

/-- `handleWebSocketMessage` (modal.tsx lines 100-133): a `switch` on the
exact field `data.type`, matched case-sensitively; anything else (including
`ack` messages and messages whose discriminator lives in `action` or
`msg_type`) hits the `default` branch, which only logs. -/
def handleWebSocketMessage (s : State) (d : InMessage) (nowStr : String) :
    State :=
  match d.type with
  | some "prediction" =>
    let p : Prediction :=
      { predicted_class := d.predicted_class
        confidence := d.confidence
        timestamp := nowStr }
    { s with
      currentPrediction := some p
      chatHistory := appendChat s.chatHistory (ChatMessage.prediction p)
      totalPredictions := s.totalPredictions + 1 }
  | some "status" =>
    { s with
      status := "🔍 " ++ jsStr d.message
      chatHistory :=
        appendChat s.chatHistory (ChatMessage.system d.message nowStr) }
  | some "error" =>
    { s with status := "❌ " ++ jsStr d.message }
  | _ => s

/-- `captureFrame` (modal.tsx lines 146-177): guard on camera and an OPEN
socket, then on a photo with base64 data increment the counter, send the
bare frame message, and every 5th frame an ack carrying only the frame
count. -/
def captureFrame (s : State) (photo : Option Photo) :
    State × List OutMessage :=
  if ¬ s.hasCamera ∨ s.wsReadyState ≠ some WsReadyState.opened then (s, [])
  else
    match photo with
    | none => (s, [])
    | some ph =>
      match ph.base64 with
      | none => (s, [])
      | some b64 =>
        let fc := s.frameCount + 1
        ({ s with frameCount := fc },
          OutMessage.frameOnly b64 ::
            (if fc % 5 = 0 then [OutMessage.ackNoFps fc] else []))

/-- `startAnalysis` (modal.tsx lines 179-200).  When not connected the source
reconnects and retries after 1000 ms without mutating session state.  The
capture timer is installed synchronously with a fixed 500 ms period;
`frameCountRef` is not touched. -/
def startAnalysis (s : State) : State × List OutMessage :=
  if ¬ s.isConnected then (s, [])
  else
    ({ s with
        analysisActive := true
        status := "🔍 Analyzing Live Video..."
        currentPrediction := none
        captureInterval := some 500 },
      if s.wsReadyState = some WsReadyState.opened then
        [OutMessage.startCmd 1]
      else [])

/-- `stopAnalysis` (modal.tsx lines 202-216). -/
def stopAnalysis (s : State) : State × List OutMessage :=
  ({ s with
      analysisActive := false
      status := "⏸️ Ready for Analysis"
      currentPrediction := none
      captureInterval :=
        if s.captureInterval.isSome then none else s.captureInterval },
    if s.wsReadyState = some WsReadyState.opened then
      [OutMessage.stopCmd]
    else [])

/-- `clearHistory` (modal.tsx lines 222-226). -/
def clearHistory (s : State) : State :=
  { s with
    chatHistory := []
    totalPredictions := 0
    currentPrediction := none }

/-- The callbacks that can fire on the modal.tsx screen. -/
inductive Event
  | wsOpen
  | wsClose
  | wsError
  | wsMessage (d : InMessage) (nowStr : String)
  | userStart
  | userStop
  | tick (photo : Option Photo)
  | userClearHistory
deriving DecidableEq

/-- Dispatch one event to the handler the source installs for it. -/
def step (s : State) (e : Event) : State × List OutMessage :=
  match e with
  | Event.wsOpen => (wsOnOpen s, [])
  | Event.wsClose => (wsOnClose s, [])
  | Event.wsError => (wsOnError s, [])
  | Event.wsMessage d t => (handleWebSocketMessage s d t, [])
  | Event.userStart => startAnalysis s
  | Event.userStop => stopAnalysis s
  | Event.tick photo =>
      if s.captureInterval.isSome then captureFrame s photo else (s, [])
  | Event.userClearHistory => (clearHistory s, [])

/-- Run a trace of events, collecting every outbound message in order. -/
def run (s : State) : List Event → State × List OutMessage
  | [] => (s, [])
  | e :: es =>
    let r := step s e
    let rest := run r.1 es
    (rest.1, r.2 ++ rest.2)

end Modal

/-- A capture result carrying image data, used in concrete traces. -/
def okPhoto : Photo := ⟨some "f", 640, 480⟩

/-- A concrete inbound prediction message with the discriminator in `type`. -/
def predMsg : InMessage :=
  ⟨some "prediction", none, none, none, some "cavity", some 1, none⟩

/-- A concrete inbound prediction message with the discriminator in
`action` only. -/
def predMsgAction : InMessage :=
  ⟨none, some "prediction", none, none, some "cavity", none, none⟩

/-- A concrete inbound error message. -/
def errMsg : InMessage :=
  ⟨some "error", none, none, some "model unavailable", none, none, none⟩

/-- Thirteen distinct history entries, for exercising the eviction bound. -/
def exMsgs : List ChatMessage :=
  (List.range 13).map fun i => ChatMessage.system (some (toString i)) "t"

/-- The conditions under which one `captureFrame` invocation in index.tsx
accepts the capture (increments the counter and transmits): component
mounted, streaming, camera present, interval elapsed, photo carrying base64
data, socket OPEN. -/
def Index.captureAccepted (s : Index.State) (now : ℕ)
    (photo : Option Photo) : Bool :=
  s.isMounted && s.isStreaming && s.hasCamera &&
    !(Index.tooSoon now s.lastFrameTime s.streamFPS) &&
    (photo.bind Photo.base64).isSome &&
    decide (s.wsReadyState = some WsReadyState.opened)

/-- The conditions under which one `captureFrame` invocation in modal.tsx
accepts the capture: camera present, socket OPEN, photo carrying base64
data. -/
def Modal.captureAccepted (s : Modal.State) (photo : Option Photo) : Bool :=
  s.hasCamera && decide (s.wsReadyState = some WsReadyState.opened) &&
    (photo.bind Photo.base64).isSome

/-- Recognizer for the index.tsx ack wire message. -/
def isAck : OutMessage → Bool
  | OutMessage.ack _ _ => true
  | _ => false

/-- Recognizer for the modal.tsx ack wire message (no fps field). -/
def isAckNoFps : OutMessage → Bool
  | OutMessage.ackNoFps _ => true
  | _ => false

/-- index.tsx state after socket open, user start and the deferred
`startVideoStream` callback: connected and streaming at the default 5 FPS. -/
def Index.streamingState : Index.State :=
  (Index.run Index.initState
    [Index.Event.wsOpen, Index.Event.userStart,
      Index.Event.delayedStartStream]).1

/-- modal.tsx state after socket open: connected, idle. -/
def Modal.connectedState : Modal.State :=
  (Modal.run Modal.initState [Modal.Event.wsOpen]).1

/-- The integer tick guard agrees with the rational comparison written in the
source: for positive `fps` and `last ≤ now`, `tooSoon` holds exactly when
`now - last < 100 / fps`. -/
theorem Index.tooSoon_iff_lt_frameInterval (now last fps : ℕ) (h : 0 < fps)
    (hle : last ≤ now) :
    Index.tooSoon now last fps = true ↔
      ((now : ℚ) - last < Index.frameInterval fps) := by
  unfold Index.tooSoon Index.frameInterval
  have hfps : (0 : ℚ) < fps := by exact_mod_cast h
  rw [lt_div_iff₀ hfps]
  simp only [decide_eq_true_eq]
  have hsub : ((now - last : ℕ) : ℚ) = (now : ℚ) - last := Nat.cast_sub hle
  rw [← hsub]
  exact_mod_cast Iff.rfl

/-- One append never grows the history beyond 12 entries. -/
theorem appendChat_length_le (h : List ChatMessage) (m : ChatMessage) :
    (appendChat h m).length ≤ 12 := by
  unfold appendChat
  simp [List.length_drop]
  omega

/-- One append keeps exactly the last 12 entries of the extended sequence. -/
theorem appendChat_eq_lastTwelve (h : List ChatMessage) (m : ChatMessage) :
    appendChat h m = (h ++ [m]).drop ((h ++ [m]).length - 12) := by
  unfold appendChat
  rw [List.drop_append_eq_append_drop]
  have h1 : (h ++ [m]).length - 12 = h.length - 11 := by
    simp [List.length_append]
  rw [h1]
  have h2 : h.length - 11 - h.length = 0 := by omega
  rw [h2, List.drop_zero]

/-- Taking the last `n` elements is insensitive to first restricting the
left part of an append to its last `n` elements. -/
theorem lastTwelve_glue {α : Type} (n : ℕ) (m l : List α) :
    (m.drop (m.length - n) ++ l).drop ((m.drop (m.length - n) ++ l).length - n)
      = (m ++ l).drop ((m ++ l).length - n) := by
  rw [List.drop_append_eq_append_drop, List.drop_append_eq_append_drop,
    List.drop_drop]
  congr 1
  · congr 1
    simp [List.length_append, List.length_drop]
    omega
  · congr 1
    simp [List.length_append, List.length_drop]
    omega

/-- Folding any append sequence over a history within the bound yields the
last 12 entries of the concatenated sequence. -/
theorem foldl_appendChat (l : List ChatMessage) :
    ∀ h : List ChatMessage, h.length ≤ 12 →
      List.foldl appendChat h l = (h ++ l).drop ((h ++ l).length - 12) := by
  induction l with
  | nil =>
    intro h hh
    have h0 : h.length - 12 = 0 := by omega
    simp [h0]
  | cons x l ih =>
    intro h hh
    rw [List.foldl_cons, ih (appendChat h x) (appendChat_length_le h x),
      appendChat_eq_lastTwelve, lastTwelve_glue]
    simp

/-- When the appended sequence alone has at least `n` entries, the last `n`
entries of the concatenation come from it alone. -/
theorem lastTwelve_of_long {α : Type} (n : ℕ) (h l : List α)
    (hl : n ≤ l.length) :
    (h ++ l).drop ((h ++ l).length - n) = l.drop (l.length - n) := by
  rw [List.drop_append_eq_append_drop]
  have h2 : h.drop ((h ++ l).length - n) = [] := by
    apply List.drop_eq_nil_of_le
    simp [List.length_append]
    omega
  rw [h2]
  have h3 : (h ++ l).length - n - h.length = l.length - n := by
    simp [List.length_append]
    omega
  rw [h3, List.nil_append]

/-- The index.tsx message handler keeps the history within the 12-entry
bound. -/
theorem Index.handleWebSocketMessage_history_le (s : Index.State)
    (d : InMessage) (t : String) (hs : s.chatHistory.length ≤ 12) :
    (Index.handleWebSocketMessage s d t).chatHistory.length ≤ 12 := by
  unfold Index.handleWebSocketMessage
  dsimp only
  split
  · exact appendChat_length_le _ _
  · split
    · exact appendChat_length_le _ _
    · split
      · exact hs
      · split
        · exact appendChat_length_le _ _
        · exact hs

/-- `captureFrame` in index.tsx never touches the history. -/
theorem Index.captureFrame_history (s : Index.State) (now : ℕ)
    (photo : Option Photo) :
    (Index.captureFrame s now photo).1.chatHistory = s.chatHistory := by
  unfold Index.captureFrame
  repeat' split
  all_goals rfl

/-- Every index.tsx transition keeps the history within the 12-entry bound. -/
theorem Index.step_history_le (s : Index.State) (e : Index.Event)
    (hs : s.chatHistory.length ≤ 12) :
    (Index.step s e).1.chatHistory.length ≤ 12 := by
  cases e with
  | wsOpen => exact hs
  | wsClose => exact hs
  | wsError => exact hs
  | wsMessage d t => exact Index.handleWebSocketMessage_history_le s d t hs
  | userStart =>
    unfold Index.step Index.startAnalysis
    dsimp only
    split
    · exact hs
    · exact hs
  | delayedStartStream =>
    unfold Index.step Index.startVideoStream
    dsimp only
    split
    · exact hs
    · exact hs
  | userStop => exact hs
  | tick now photo =>
    unfold Index.step
    dsimp only
    split
    · rw [Index.captureFrame_history]; exact hs
    · exact hs
  | userToggleFps =>
    unfold Index.step Index.toggleStreamFPS
    dsimp only
    split
    · exact hs
    · exact hs
  | userClearHistory => simp [Index.step, Index.clearHistory]

/-- The 12-entry history bound holds along every index.tsx trace. -/
theorem Index.run_history_le (es : List Index.Event) :
    ∀ s : Index.State, s.chatHistory.length ≤ 12 →
      (Index.run s es).1.chatHistory.length ≤ 12 := by
  induction es with
  | nil => intro s hs; exact hs
  | cons e es ih =>
    intro s hs
    exact ih (Index.step s e).1 (Index.step_history_le s e hs)

/-- The modal.tsx message handler keeps the history within the 12-entry
bound. -/
theorem Modal.handleWebSocketMessage_history_le_modal (s : Modal.State)
    (d : InMessage) (t : String) (hs : s.chatHistory.length ≤ 12) :
    (Modal.handleWebSocketMessage s d t).chatHistory.length ≤ 12 := by
  unfold Modal.handleWebSocketMessage
  split
  · exact appendChat_length_le _ _
  · exact appendChat_length_le _ _
  · exact hs
  · exact hs

/-- `captureFrame` in modal.tsx never touches the history. -/
theorem Modal.captureFrame_history_modal (s : Modal.State) (photo : Option Photo) :
    (Modal.captureFrame s photo).1.chatHistory = s.chatHistory := by
  unfold Modal.captureFrame
  repeat' split
  all_goals rfl

/-- Every modal.tsx transition keeps the history within the 12-entry bound. -/
theorem Modal.step_history_le_modal (s : Modal.State) (e : Modal.Event)
    (hs : s.chatHistory.length ≤ 12) :
    (Modal.step s e).1.chatHistory.length ≤ 12 := by
  cases e with
  | wsOpen => exact hs
  | wsClose => exact hs
  | wsError => exact hs
  | wsMessage d t => exact Modal.handleWebSocketMessage_history_le_modal s d t hs
  | userStart =>
    unfold Modal.step Modal.startAnalysis
    dsimp only
    split
    · exact hs
    · exact hs
  | userStop => exact hs
  | tick photo =>
    unfold Modal.step
    dsimp only
    split
    · rw [Modal.captureFrame_history_modal]; exact hs
    · exact hs
  | userClearHistory => simp [Modal.step, Modal.clearHistory]

/-- The 12-entry history bound holds along every modal.tsx trace. -/
theorem Modal.run_history_le_modal (es : List Modal.Event) :
    ∀ s : Modal.State, s.chatHistory.length ≤ 12 →
      (Modal.run s es).1.chatHistory.length ≤ 12 := by
  induction es with
  | nil => intro s hs; exact hs
  | cons e es ih =>
    intro s hs
    exact ih (Modal.step s e).1 (Modal.step_history_le_modal s e hs)

/-- The index.tsx message handler never changes the socket handle. -/
theorem Index.handleWebSocketMessage_ws (s : Index.State) (d : InMessage)
    (t : String) :
    (Index.handleWebSocketMessage s d t).wsReadyState = s.wsReadyState := by
  unfold Index.handleWebSocketMessage
  dsimp only
  repeat' split
  all_goals rfl

/-- `captureFrame` in index.tsx never changes the socket handle. -/
theorem Index.captureFrame_ws (s : Index.State) (now : ℕ)
    (photo : Option Photo) :
    (Index.captureFrame s now photo).1.wsReadyState = s.wsReadyState := by
  unfold Index.captureFrame
  repeat' split
  all_goals rfl

/-- `captureFrame` in index.tsx sends nothing when the socket is not OPEN. -/
theorem Index.captureFrame_out_nil (s : Index.State) (now : ℕ)
    (photo : Option Photo)
    (h : s.wsReadyState ≠ some WsReadyState.opened) :
    (Index.captureFrame s now photo).2 = [] := by
  unfold Index.captureFrame
  repeat' split
  all_goals rfl

/-- No index.tsx transition sends anything when the socket is not OPEN. -/
theorem Index.step_out_nil (s : Index.State) (e : Index.Event)
    (h : s.wsReadyState ≠ some WsReadyState.opened) :
    (Index.step s e).2 = [] := by
  cases e with
  | wsOpen => rfl
  | wsClose => rfl
  | wsError => rfl
  | wsMessage d t => rfl
  | userStart =>
    unfold Index.step Index.startAnalysis
    dsimp only
    split
    · rfl
    · simp [h]
  | delayedStartStream => rfl
  | userStop =>
    unfold Index.step Index.stopAnalysis
    dsimp only
    simp [h]
  | tick now photo =>
    unfold Index.step
    dsimp only
    split
    · exact Index.captureFrame_out_nil s now photo h
    · rfl
  | userToggleFps => rfl
  | userClearHistory => rfl

/-- No index.tsx transition other than a socket-open event can make the
socket OPEN. -/
theorem Index.step_ws_ne (s : Index.State) (e : Index.Event)
    (h : s.wsReadyState ≠ some WsReadyState.opened)
    (he : e ≠ Index.Event.wsOpen) :
    (Index.step s e).1.wsReadyState ≠ some WsReadyState.opened := by
  cases e with
  | wsOpen => exact absurd rfl he
  | wsClose => simp [Index.step, Index.wsOnClose]
  | wsError => exact h
  | wsMessage d t =>
    show (Index.handleWebSocketMessage s d t).wsReadyState ≠ _
    rw [Index.handleWebSocketMessage_ws]
    exact h
  | userStart =>
    unfold Index.step Index.startAnalysis
    dsimp only
    split
    · exact h
    · exact h
  | delayedStartStream =>
    unfold Index.step Index.startVideoStream
    dsimp only
    split
    · exact h
    · exact h
  | userStop => exact h
  | tick now photo =>
    unfold Index.step
    dsimp only
    split
    · rw [Index.captureFrame_ws]; exact h
    · exact h
  | userToggleFps =>
    unfold Index.step Index.toggleStreamFPS
    dsimp only
    split
    · exact h
    · exact h
  | userClearHistory => exact h

/-- Along any trace that opens no new socket, a session whose socket is not
OPEN sends no outbound message at all. -/
theorem Index.run_out_nil (es : List Index.Event) :
    ∀ s : Index.State, s.wsReadyState ≠ some WsReadyState.opened →
      Index.Event.wsOpen ∉ es → (Index.run s es).2 = [] := by
  induction es with
  | nil => intro s _ _; rfl
  | cons e es ih =>
    intro s h hne
    have he : e ≠ Index.Event.wsOpen := fun hh =>
      hne (hh ▸ List.mem_cons_self e es)
    show ((Index.run (Index.step s e).1 es).1, (Index.step s e).2 ++
      (Index.run (Index.step s e).1 es).2).2 = []
    dsimp only
    rw [Index.step_out_nil s e h, List.nil_append]
    exact ih (Index.step s e).1 (Index.step_ws_ne s e h he)
      fun hm => hne (List.mem_cons_of_mem e hm)

/-- `captureFrame` in index.tsx increments `frameCount` by exactly one on an
accepted capture and leaves it alone otherwise. -/
theorem Index.captureFrame_frameCount (s : Index.State) (now : ℕ)
    (photo : Option Photo) :
    (Index.captureFrame s now photo).1.frameCount =
      (if Index.captureAccepted s now photo = true
        then s.frameCount + 1 else s.frameCount) := by
  unfold Index.captureFrame Index.captureAccepted
  repeat' split
  all_goals simp_all

/-- `captureFrame` in modal.tsx increments `frameCount` by exactly one on an
accepted capture and leaves it alone otherwise. -/
theorem Modal.captureFrame_frameCount_modal (s : Modal.State)
    (photo : Option Photo) :
    (Modal.captureFrame s photo).1.frameCount =
      (if Modal.captureAccepted s photo = true
        then s.frameCount + 1 else s.frameCount) := by
  unfold Modal.captureFrame Modal.captureAccepted
  repeat' split
  all_goals simp_all

/-- One index.tsx capture emits exactly one ack when it is accepted and the
new frame count is a multiple of 10, and none otherwise. -/
theorem Index.captureFrame_ack_count (s : Index.State) (now : ℕ)
    (photo : Option Photo) :
    (Index.captureFrame s now photo).2.countP isAck =
      (if Index.captureAccepted s now photo = true ∧
          (s.frameCount + 1) % 10 = 0
        then 1 else 0) := by
  unfold Index.captureFrame Index.captureAccepted
  repeat' split
  all_goals simp_all [isAck, List.countP_cons]

/-- Any ack an index.tsx capture emits carries the just-incremented frame
count and the target fps, and only fires at multiples of 10. -/
theorem Index.captureFrame_ack_mem (s : Index.State) (now : ℕ)
    (photo : Option Photo) (fc fps : ℕ)
    (hm : OutMessage.ack fc fps ∈ (Index.captureFrame s now photo).2) :
    fc = s.frameCount + 1 ∧ fps = s.streamFPS ∧ fc % 10 = 0 := by
  unfold Index.captureFrame at hm
  repeat' split at hm
  all_goals simp_all

/-- One modal.tsx capture emits exactly one (fps-less) ack when it is
accepted and the new frame count is a multiple of 5, and none otherwise. -/
theorem Modal.captureFrame_ack_count_modal (s : Modal.State) (photo : Option Photo) :
    (Modal.captureFrame s photo).2.countP isAckNoFps =
      (if Modal.captureAccepted s photo = true ∧ (s.frameCount + 1) % 5 = 0
        then 1 else 0) := by
  unfold Modal.captureFrame Modal.captureAccepted
  repeat' split
  all_goals simp_all [isAckNoFps, List.countP_cons]

/-- Any ack a modal.tsx capture emits carries the just-incremented frame
count and only fires at multiples of 5. -/
theorem Modal.captureFrame_ack_mem_modal (s : Modal.State) (photo : Option Photo)
    (fc : ℕ) (hm : OutMessage.ackNoFps fc ∈ (Modal.captureFrame s photo).2) :
    fc = s.frameCount + 1 ∧ fc % 5 = 0 := by
  unfold Modal.captureFrame at hm
  repeat' split at hm
  all_goals simp_all

/-- modal.tsx never sends the fps-carrying ack shape. -/
theorem Modal.captureFrame_no_fps_ack (s : Modal.State) (photo : Option Photo)
    (fc fps : ℕ) : OutMessage.ack fc fps ∉ (Modal.captureFrame s photo).2 := by
  unfold Modal.captureFrame
  repeat' split
  all_goals simp_all

/-- In index.tsx only timer ticks and the deferred `startVideoStream`
callback can change `frameCount`. -/
theorem Index.step_frameCount (s : Index.State) (e : Index.Event)
    (ht : ∀ now photo, e ≠ Index.Event.tick now photo)
    (hd : e ≠ Index.Event.delayedStartStream) :
    (Index.step s e).1.frameCount = s.frameCount := by
  cases e with
  | wsOpen => rfl
  | wsClose => rfl
  | wsError => rfl
  | wsMessage d t =>
    unfold Index.step Index.handleWebSocketMessage
    dsimp only
    repeat' split
    all_goals rfl
  | userStart =>
    unfold Index.step Index.startAnalysis
    dsimp only
    split
    all_goals rfl
  | delayedStartStream => exact absurd rfl hd
  | userStop => rfl
  | tick now photo => exact absurd rfl (ht now photo)
  | userToggleFps =>
    unfold Index.step Index.toggleStreamFPS
    dsimp only
    split
    all_goals rfl
  | userClearHistory => rfl

/-- In modal.tsx only timer ticks can change `frameCount`; in particular
`startAnalysis` leaves it alone. -/
theorem Modal.step_frameCount_modal (s : Modal.State) (e : Modal.Event)
    (ht : ∀ photo, e ≠ Modal.Event.tick photo) :
    (Modal.step s e).1.frameCount = s.frameCount := by
  cases e with
  | wsOpen => rfl
  | wsClose => rfl
  | wsError => rfl
  | wsMessage d t =>
    unfold Modal.step Modal.handleWebSocketMessage
    dsimp only
    repeat' split
    all_goals rfl
  | userStart =>
    unfold Modal.step Modal.startAnalysis
    dsimp only
    split
    all_goals rfl
  | userStop => rfl
  | tick photo => exact absurd rfl (ht photo)
  | userClearHistory => rfl

/-- C1: the claim requires a minimum inter-frame interval of `1000/targetFps`
ms with the tick timer at half that, but index.tsx line 201 computes
`100 / streamFPS`.  At targetFps = 5 the code's minimum interval is 20 ms
(not 200 ms), the installed tick period is 10 ms (not 100 ms), the 20
ms-elapsed guard passes, and a trace accepts and transmits a second capture
20 ms after the first even though 20 ms is far below the claimed 200 ms
minimum. -/
theorem C1_interval_code_bug :
    Index.frameInterval 5 = 20 ∧
    Index.specFrameInterval 5 = 200 ∧
    Index.frameInterval 5 ≠ Index.specFrameInterval 5 ∧
    Index.streamingState.captureInterval =
      some (Index.frameInterval 5 / 2) ∧
    Index.frameInterval 5 / 2 = 10 ∧
    Index.tooSoon 1020 1000 5 = false ∧
    ((1020 : ℚ) - 1000 < Index.specFrameInterval 5) ∧
    (Index.run Index.initState
      [Index.Event.wsOpen, Index.Event.userStart,
        Index.Event.delayedStartStream,
        Index.Event.tick 1000 (some okPhoto),
        Index.Event.tick 1020 (some okPhoto)]).1.frameCount = 2 := by
  refine ⟨by norm_num [Index.frameInterval],
    by norm_num [Index.specFrameInterval],
    by norm_num [Index.frameInterval, Index.specFrameInterval], rfl,
    by norm_num [Index.frameInterval], rfl,
    by norm_num [Index.specFrameInterval], by decide⟩

/-- C2 counterexample: in the state reached by open → start → scheduler
start, the close handler forces `analysisActive` to false but leaves the
streaming flag set and the repeating capture timer installed: it does not
stop the frame scheduler, contrary to the claim. -/
theorem C2_close_leaves_scheduler_running :
    Index.streamingState.isStreaming = true ∧
    (Index.wsOnClose Index.streamingState).analysisActive = false ∧
    (Index.wsOnClose Index.streamingState).isStreaming = true ∧
    (Index.wsOnClose Index.streamingState).captureInterval.isSome = true := by
  exact ⟨rfl, rfl, rfl, rfl⟩

/-- C2 amended: when the socket closes, the close handler forces
`analysisActive` to false and records the disconnect, but does NOT stop the
frame scheduler: the streaming flag and the repeating capture timer are left
exactly as they were.  Nevertheless no further outbound message is sent
after the closure: every send is gated on an OPEN socket, so any trace of
further events that does not open a new socket produces no outbound
messages. -/
theorem C2_close_amended (s : Index.State) (es : List Index.Event)
    (hes : Index.Event.wsOpen ∉ es) :
    (Index.wsOnClose s).analysisActive = false ∧
    (Index.wsOnClose s).isConnected = false ∧
    (Index.wsOnClose s).isStreaming = s.isStreaming ∧
    (Index.wsOnClose s).captureInterval = s.captureInterval ∧
    (Index.run (Index.wsOnClose s) es).2 = [] := by
  refine ⟨rfl, rfl, rfl, rfl, ?_⟩
  exact Index.run_out_nil es (Index.wsOnClose s) (by simp [Index.wsOnClose])
    hes

/-- C2 witness: the amended close behaviour at a concrete streaming state,
running a concrete post-close trace (a timer tick with a good photo, then a
user stop) that sends nothing. -/
theorem C2_close_amended_witness :
    (Index.run (Index.wsOnClose Index.streamingState)
      [Index.Event.tick 1000 (some okPhoto), Index.Event.userStop]).2
      = [] := by
  exact (C2_close_amended Index.streamingState
    [Index.Event.tick 1000 (some okPhoto), Index.Event.userStop]
    (by decide)).2.2.2.2

/-- C3: both screens keep the chat history at 12 entries or fewer after
every transition of every trace, and appending any sequence of 12 or more
entries to any in-bound history leaves exactly the 12 most recently appended
entries, in arrival order, oldest evicted first. -/
theorem C3_history_bound :
    (∀ es, (Index.run Index.initState es).1.chatHistory.length ≤ 12) ∧
    (∀ es, (Modal.run Modal.initState es).1.chatHistory.length ≤ 12) ∧
    (∀ (h l : List ChatMessage), h.length ≤ 12 → 12 ≤ l.length →
      List.foldl appendChat h l = l.drop (l.length - 12) ∧
      (List.foldl appendChat h l).length = 12) := by
  refine ⟨fun es => Index.run_history_le es Index.initState
      (by simp [Index.initState]),
    fun es => Modal.run_history_le_modal es Modal.initState
      (by simp [Modal.initState]),
    fun h l hh hl => ?_⟩
  have key := foldl_appendChat l h hh
  rw [lastTwelve_of_long 12 h l hl] at key
  refine ⟨key, ?_⟩
  rw [key, List.length_drop]
  omega

/-- C3 witness: appending 13 concrete entries to the empty history leaves
exactly the last 12 in order. -/
theorem C3_history_bound_witness :
    List.foldl appendChat [] exMsgs = exMsgs.drop 1 ∧
    (List.foldl appendChat [] exMsgs).length = 12 := by
  have h := C3_history_bound.2.2 [] exMsgs (by decide) (by decide)
  exact ⟨by simpa using h.1, h.2⟩

/-- C4 counterexample: in modal.tsx, after a session that accepted 7 frames
is stopped and a new stream is started, `frameCount` is still 7: the stream
start did not reset it to 0 as the claim requires. -/
theorem C4_modal_start_does_not_reset :
    (Modal.run Modal.initState
      ([Modal.Event.wsOpen, Modal.Event.userStart] ++
        List.replicate 7 (Modal.Event.tick (some okPhoto)) ++
        [Modal.Event.userStop, Modal.Event.userStart])).1.analysisActive
      = true ∧
    (Modal.run Modal.initState
      ([Modal.Event.wsOpen, Modal.Event.userStart] ++
        List.replicate 7 (Modal.Event.tick (some okPhoto)) ++
        [Modal.Event.userStop, Modal.Event.userStart])).1.frameCount = 7 := by
  exact ⟨by decide, by decide⟩

/-- C4 amended: in index.tsx every guard-passing stream start resets
`frameCount` to 0, each accepted capture increments it by exactly 1, and no
other operation changes it.  In modal.tsx each accepted capture increments
it by exactly 1 and no operation other than a capture — in particular not
`startAnalysis` — changes it, so it is never reset after mount. -/
theorem C4_frameCount_amended :
    (∀ s : Index.State, s.hasCamera = true →
      s.wsReadyState = some WsReadyState.opened →
      (Index.startVideoStream s).frameCount = 0) ∧
    (∀ (s : Index.State) (now : ℕ) (photo : Option Photo),
      (Index.captureFrame s now photo).1.frameCount =
        (if Index.captureAccepted s now photo = true
          then s.frameCount + 1 else s.frameCount)) ∧
    (∀ (s : Index.State) (e : Index.Event),
      (∀ now photo, e ≠ Index.Event.tick now photo) →
      e ≠ Index.Event.delayedStartStream →
      (Index.step s e).1.frameCount = s.frameCount) ∧
    (∀ s : Modal.State,
      (Modal.startAnalysis s).1.frameCount = s.frameCount) ∧
    (∀ (s : Modal.State) (photo : Option Photo),
      (Modal.captureFrame s photo).1.frameCount =
        (if Modal.captureAccepted s photo = true
          then s.frameCount + 1 else s.frameCount)) ∧
    (∀ (s : Modal.State) (e : Modal.Event),
      (∀ photo, e ≠ Modal.Event.tick photo) →
      (Modal.step s e).1.frameCount = s.frameCount) := by
  refine ⟨?_, Index.captureFrame_frameCount, Index.step_frameCount, ?_,
    Modal.captureFrame_frameCount_modal, Modal.step_frameCount_modal⟩
  · intro s h1 h2
    simp [Index.startVideoStream, h1, h2]
  · intro s
    unfold Modal.startAnalysis
    split <;> rfl

/-- C4 witness: the stream start at the concrete streaming state resets
`frameCount`; a user stop and modal.tsx's `startAnalysis` leave it
unchanged. -/
theorem C4_frameCount_amended_witness :
    (Index.startVideoStream Index.streamingState).frameCount = 0 ∧
    (Index.step Index.streamingState Index.Event.userStop).1.frameCount =
      Index.streamingState.frameCount ∧
    (Modal.startAnalysis Modal.connectedState).1.frameCount =
      Modal.connectedState.frameCount := by
  refine ⟨C4_frameCount_amended.1 Index.streamingState rfl rfl,
    C4_frameCount_amended.2.2.1 Index.streamingState Index.Event.userStop
      (fun now photo h => by cases h) (fun h => by cases h),
    C4_frameCount_amended.2.2.2.1 Modal.connectedState⟩

/-- C5 counterexample: modal.tsx sends its ack on the 5th accepted frame,
carrying only the frame count and no fps, although 5 is not a multiple of
10: the claimed "iff frameCount % 10 == 0" rule fails there. -/
theorem C5_modal_ack_every_five :
    OutMessage.ackNoFps 5 ∈
      (Modal.run Modal.initState
        ([Modal.Event.wsOpen, Modal.Event.userStart] ++
          List.replicate 5 (Modal.Event.tick (some okPhoto)))).2 ∧
    5 % 10 ≠ 0 := by
  exact ⟨by decide, by decide⟩

/-- C5 amended: in index.tsx an accepted capture emits exactly one ack,
exactly when the incremented frame count is a multiple of 10, and any ack
sent carries that frame count and the target fps.  In modal.tsx an accepted
capture emits exactly one ack, exactly when the incremented frame count is
a multiple of 5; that ack carries only the frame count, and the
fps-carrying ack shape is never sent. -/
theorem C5_ack_amended :
    (∀ (s : Index.State) (now : ℕ) (photo : Option Photo),
      (Index.captureFrame s now photo).2.countP isAck =
        (if Index.captureAccepted s now photo = true ∧
            (s.frameCount + 1) % 10 = 0 then 1 else 0)) ∧
    (∀ (s : Index.State) (now : ℕ) (photo : Option Photo) (fc fps : ℕ),
      OutMessage.ack fc fps ∈ (Index.captureFrame s now photo).2 →
      fc = s.frameCount + 1 ∧ fps = s.streamFPS ∧ fc % 10 = 0) ∧
    (∀ (s : Modal.State) (photo : Option Photo),
      (Modal.captureFrame s photo).2.countP isAckNoFps =
        (if Modal.captureAccepted s photo = true ∧ (s.frameCount + 1) % 5 = 0
          then 1 else 0)) ∧
    (∀ (s : Modal.State) (photo : Option Photo) (fc : ℕ),
      OutMessage.ackNoFps fc ∈ (Modal.captureFrame s photo).2 →
      fc = s.frameCount + 1 ∧ fc % 5 = 0) ∧
    (∀ (s : Modal.State) (photo : Option Photo) (fc fps : ℕ),
      OutMessage.ack fc fps ∉ (Modal.captureFrame s photo).2) :=
  ⟨Index.captureFrame_ack_count, Index.captureFrame_ack_mem,
    Modal.captureFrame_ack_count_modal, Modal.captureFrame_ack_mem_modal,
    Modal.captureFrame_no_fps_ack⟩

/-- C5 witness: at a streaming index.tsx state that has already sent 9
frames, the 10th accepted capture emits exactly one ack, carrying frame
count 10 and fps 5; at a modal.tsx state that has sent 4, the capture's ack
carries frame count 5. -/
theorem C5_ack_amended_witness :
    (Index.captureFrame { Index.streamingState with frameCount := 9 }
      1000 (some okPhoto)).2.countP isAck = 1 ∧
    ((10 : ℕ) = 9 + 1 ∧
      (5 : ℕ) = Index.streamingState.streamFPS ∧ (10 : ℕ) % 10 = 0) ∧
    ((5 : ℕ) = 4 + 1 ∧ (5 : ℕ) % 5 = 0) := by
  refine ⟨?_, ?_, ?_⟩
  · rw [C5_ack_amended.1]
    decide
  · exact C5_ack_amended.2.1 { Index.streamingState with frameCount := 9 }
      1000 (some okPhoto) 10 5 (by decide)
  · exact C5_ack_amended.2.2.2.1 { Modal.connectedState with frameCount := 4 }
      (some okPhoto) 5 (by decide)

/-- C6 counterexample: modal.tsx handles an inbound error message by
setting the status (and raising a UI alert) only; the history gains no
SystemNotice entry, contrary to the claim. -/
theorem C6_modal_error_appends_nothing :
    Modal.connectedState.chatHistory = [] ∧
    (Modal.handleWebSocketMessage Modal.connectedState errMsg
      "t").chatHistory = [] ∧
    (Modal.handleWebSocketMessage Modal.connectedState errMsg "t").status
      = "❌ model unavailable" := by
  exact ⟨rfl, rfl, by decide⟩

/-- C6 amended: for an inbound error message, index.tsx sets the status to
an error string, appends exactly one SystemNotice to the history, and
leaves `analysisActive`, the streaming flag and the capture timer
unchanged; modal.tsx sets the status to an error string (and raises a UI
alert) but appends nothing to the history, also leaving `analysisActive`
and the capture timer unchanged.  Neither screen stops streaming. -/
theorem C6_error_amended :
    (∀ (s : Index.State) (d : InMessage) (t : String),
      Index.msgTypeOf d = "error" →
      (Index.handleWebSocketMessage s d t).status =
        "❌ " ++ truthyOr d.message "Analysis error" ∧
      (Index.handleWebSocketMessage s d t).chatHistory =
        appendChat s.chatHistory
          (ChatMessage.system (some (truthyOr d.message "Analysis error"))
            t) ∧
      (Index.handleWebSocketMessage s d t).analysisActive =
        s.analysisActive ∧
      (Index.handleWebSocketMessage s d t).isStreaming = s.isStreaming ∧
      (Index.handleWebSocketMessage s d t).captureInterval =
        s.captureInterval ∧
      (Index.handleWebSocketMessage s d t).currentPrediction =
        s.currentPrediction) ∧
    (∀ (s : Modal.State) (d : InMessage) (t : String),
      d.type = some "error" →
      (Modal.handleWebSocketMessage s d t).status =
        "❌ " ++ jsStr d.message ∧
      (Modal.handleWebSocketMessage s d t).chatHistory = s.chatHistory ∧
      (Modal.handleWebSocketMessage s d t).analysisActive =
        s.analysisActive ∧
      (Modal.handleWebSocketMessage s d t).captureInterval =
        s.captureInterval) := by
  constructor
  · intro s d t h
    simp [Index.handleWebSocketMessage, h]
  · intro s d t h
    simp [Modal.handleWebSocketMessage, h]

/-- C6 witness: the error behaviour of both screens at the concrete error
message. -/
theorem C6_error_amended_witness :
    (Index.handleWebSocketMessage Index.streamingState errMsg "t").status
      = "❌ " ++ truthyOr errMsg.message "Analysis error" ∧
    (Index.handleWebSocketMessage Index.streamingState errMsg
        "t").analysisActive = Index.streamingState.analysisActive ∧
    (Modal.handleWebSocketMessage Modal.connectedState errMsg
        "t").chatHistory = Modal.connectedState.chatHistory := by
  refine ⟨?_, ?_, ?_⟩
  · exact (C6_error_amended.1 Index.streamingState errMsg "t" (by decide)).1
  · exact (C6_error_amended.1 Index.streamingState errMsg "t"
      (by decide)).2.2.1
  · exact (C6_error_amended.2 Modal.connectedState errMsg "t" rfl).2.1

/-- C7 counterexample: a message carrying its discriminator only in the
`action` field, and one with an upper-case `type`, are both classified by
index.tsx (which reads `type`/`action`/`msg_type` case-insensitively) but
hit modal.tsx's default branch and change nothing: the claimed tolerant
classifier exists only in index.tsx. -/
theorem C7_modal_classifier_strict :
    Index.msgTypeOf predMsgAction = "prediction" ∧
    (Index.handleWebSocketMessage Index.initState predMsgAction
        "t").totalPredictions = 1 ∧
    Modal.handleWebSocketMessage Modal.initState predMsgAction "t"
      = Modal.initState ∧
    Index.msgTypeOf
        ⟨some "PREDICTION", none, none, none, some "cavity", none, none⟩
      = "prediction" ∧
    Modal.handleWebSocketMessage Modal.initState
        ⟨some "PREDICTION", none, none, none, some "cavity", none, none⟩ "t"
      = Modal.initState := by
  exact ⟨by decide, by decide, rfl, by decide, rfl⟩

/-- C7 amended: index.tsx reads the discriminator from `type`, `action` or
`msg_type` (first truthy), lower-cased, and an ack or unrecognized
discriminator causes no state change; modal.tsx instead switches on the
exact `type` field case-sensitively, so any message whose `type` is not
exactly `prediction`, `status` or `error` — including every ack — causes no
state change there. -/
theorem C7_classifier_amended :
    (∀ d : InMessage, Index.msgTypeOf d =
      lowerStr (truthyOr d.type (truthyOr d.action (truthyOr d.msg_type
        "")))) ∧
    (∀ (s : Index.State) (d : InMessage) (t : String),
      Index.msgTypeOf d = "ack" → Index.handleWebSocketMessage s d t = s) ∧
    (∀ (s : Index.State) (d : InMessage) (t : String),
      Index.msgTypeOf d ∉ (["prediction", "status", "ack", "error"] :
        List String) →
      Index.handleWebSocketMessage s d t = s) ∧
    (∀ (s : Modal.State) (d : InMessage) (t : String),
      d.type ∉ ([some "prediction", some "status", some "error"] :
        List (Option String)) →
      Modal.handleWebSocketMessage s d t = s) := by
  refine ⟨fun d => rfl, ?_, ?_, ?_⟩
  · intro s d t h
    simp [Index.handleWebSocketMessage, h]
  · intro s d t h
    simp only [List.mem_cons, List.not_mem_nil, or_false, not_or] at h
    obtain ⟨h1, h2, h3, h4⟩ := h
    simp [Index.handleWebSocketMessage, h1, h2, h3, h4]
  · intro s d t h
    simp only [List.mem_cons, List.not_mem_nil, or_false, not_or] at h
    obtain ⟨h1, h2, h3⟩ := h
    unfold Modal.handleWebSocketMessage
    split
    all_goals simp_all

/-- C7 witness: an ack addressed via the `action` field is a no-op on
index.tsx, and an ack in `type` is a no-op on modal.tsx. -/
theorem C7_classifier_amended_witness :
    Index.handleWebSocketMessage Index.streamingState
        ⟨none, some "ack", none, none, none, none, some 10⟩ "t"
      = Index.streamingState ∧
    Modal.handleWebSocketMessage Modal.connectedState
        ⟨some "ack", none, none, none, none, none, some 10⟩ "t"
      = Modal.connectedState := by
  refine ⟨?_, ?_⟩
  · exact C7_classifier_amended.2.1 Index.streamingState
      ⟨none, some "ack", none, none, none, none, some 10⟩ "t" (by decide)
  · exact C7_classifier_amended.2.2.2 Modal.connectedState
      ⟨some "ack", none, none, none, none, none, some 10⟩ "t" (by decide)

/-- C8 counterexample: a prediction message is applied regardless of
`analysisActive`, and the close handler clears `analysisActive` without
clearing `currentPrediction`; both yield reachable states in which
`currentPrediction` is non-null while `analysisActive` is false. -/
theorem C8_prediction_while_inactive :
    (Index.run Index.initState
      [Index.Event.wsMessage predMsg "t"]).1.analysisActive = false ∧
    (Index.run Index.initState
      [Index.Event.wsMessage predMsg "t"]).1.currentPrediction.isSome
      = true ∧
    (Index.run Index.initState
      [Index.Event.wsOpen, Index.Event.userStart,
        Index.Event.wsMessage predMsg "t",
        Index.Event.wsClose]).1.analysisActive = false ∧
    (Index.run Index.initState
      [Index.Event.wsOpen, Index.Event.userStart,
        Index.Event.wsMessage predMsg "t",
        Index.Event.wsClose]).1.currentPrediction.isSome = true := by
  exact ⟨by decide, by decide, by decide, by decide⟩

/-- C8 amended: every effective stream start and every stream stop clears
`currentPrediction` (on both screens); but the prediction handler installs
a prediction without consulting `analysisActive`, and the close handler
clears `analysisActive` while preserving `currentPrediction`, so states
with a non-null `currentPrediction` and `analysisActive` false are
reachable. -/
theorem C8_currentPrediction_amended :
    (∀ s : Index.State, s.isConnected = true →
      (Index.startAnalysis s).1.currentPrediction = none) ∧
    (∀ s : Index.State, (Index.stopAnalysis s).1.currentPrediction = none) ∧
    (∀ (s : Index.State) (d : InMessage) (t : String),
      (Index.handleWebSocketMessage s d t).analysisActive =
        s.analysisActive) ∧
    (∀ s : Index.State,
      (Index.wsOnClose s).currentPrediction = s.currentPrediction ∧
      (Index.wsOnClose s).analysisActive = false) ∧
    (∀ s : Modal.State, s.isConnected = true →
      (Modal.startAnalysis s).1.currentPrediction = none) ∧
    (∀ s : Modal.State, (Modal.stopAnalysis s).1.currentPrediction = none) := by
  refine ⟨?_, fun s => rfl, ?_, fun s => ⟨rfl, rfl⟩, ?_, fun s => rfl⟩
  · intro s h
    simp [Index.startAnalysis, h]
  · intro s d t
    unfold Index.handleWebSocketMessage
    dsimp only
    repeat' split
    all_goals rfl
  · intro s h
    simp [Modal.startAnalysis, h]

/-- C8 witness: the start/stop clearing behaviour at concrete connected
states. -/
theorem C8_currentPrediction_amended_witness :
    (Index.startAnalysis Index.streamingState).1.currentPrediction = none ∧
    (Modal.startAnalysis Modal.connectedState).1.currentPrediction = none := by
  refine ⟨?_, ?_⟩
  · exact C8_currentPrediction_amended.1 Index.streamingState rfl
  · exact C8_currentPrediction_amended.2.2.2.2.1 Modal.connectedState rfl

/-- C9 counterexample: in a reachable idle state that still holds a
prediction (`analysisActive` false, scheduler not running), a stop request
is not a no-op: it clears `currentPrediction` and rewrites the status. -/
theorem C9_stop_on_idle_changes_state :
    (Index.run Index.initState
      [Index.Event.wsMessage predMsg "t"]).1.analysisActive = false ∧
    (Index.run Index.initState
      [Index.Event.wsMessage predMsg "t"]).1.isStreaming = false ∧
    (Index.run Index.initState
      [Index.Event.wsMessage predMsg "t"]).1.captureInterval = none ∧
    (Index.run Index.initState
      [Index.Event.wsMessage predMsg "t"]).1.currentPrediction.isSome
      = true ∧
    (Index.stopAnalysis (Index.run Index.initState
      [Index.Event.wsMessage predMsg "t"]).1).1.currentPrediction = none ∧
    (Index.stopAnalysis (Index.run Index.initState
      [Index.Event.wsMessage predMsg "t"]).1).1.status ≠
      (Index.run Index.initState
        [Index.Event.wsMessage predMsg "t"]).1.status := by
  exact ⟨by decide, by decide, by decide, by decide, by decide, by decide⟩

/-- C9 amended: stopping the frame scheduler is idempotent — a second
consecutive `stopVideoStream` changes nothing, and on a state where the
scheduler was never started (streaming flag down, no timer, zero timestamp)
it is the identity.  A second consecutive `stopAnalysis` also changes
nothing.  But a stop on an idle session is not a pure no-op: it always
rewrites the status to the ready string and clears `currentPrediction`,
while leaving `analysisActive` false and the counters, history and fps
unchanged. -/
theorem C9_stop_amended :
    (∀ s : Index.State, Index.stopVideoStream (Index.stopVideoStream s) =
      Index.stopVideoStream s) ∧
    (∀ s : Index.State, s.isStreaming = false → s.captureInterval = none →
      s.lastFrameTime = 0 → Index.stopVideoStream s = s) ∧
    (∀ s : Index.State, (Index.stopAnalysis (Index.stopAnalysis s).1).1 =
      (Index.stopAnalysis s).1) ∧
    (∀ s : Index.State,
      (Index.stopAnalysis s).1.analysisActive = false ∧
      (Index.stopAnalysis s).1.currentPrediction = none ∧
      (Index.stopAnalysis s).1.status = "⏸️ Ready for Analysis" ∧
      (Index.stopAnalysis s).1.frameCount = s.frameCount ∧
      (Index.stopAnalysis s).1.chatHistory = s.chatHistory ∧
      (Index.stopAnalysis s).1.totalPredictions = s.totalPredictions ∧
      (Index.stopAnalysis s).1.streamFPS = s.streamFPS ∧
      (Index.stopAnalysis s).1.isStreaming = false ∧
      (Index.stopAnalysis s).1.captureInterval = none) := by
  refine ⟨?_, ?_, ?_, ?_⟩
  · intro s
    unfold Index.stopVideoStream
    cases h : s.captureInterval <;> simp [h]
  · intro s h1 h2 h3
    cases s
    simp_all [Index.stopVideoStream]
  · intro s
    unfold Index.stopAnalysis Index.stopVideoStream
    cases h : s.captureInterval <;> simp [h]
  · intro s
    refine ⟨rfl, rfl, rfl, rfl, rfl, rfl, rfl, rfl, ?_⟩
    unfold Index.stopAnalysis Index.stopVideoStream
    cases h : s.captureInterval <;> simp [h]

/-- C9 witness: at the freshly mounted state (never started), stopping the
scheduler is the identity. -/
theorem C9_stop_amended_witness :
    Index.stopVideoStream Index.initState = Index.initState := by
  exact C9_stop_amended.2.1 Index.initState rfl rfl rfl

/-- C10: on both screens `clearHistory` empties the history, zeroes the
total-predictions counter and clears the current prediction, and changes
nothing else — `analysisActive`, connection state, status, `frameCount`,
the target fps, the streaming flag and the capture timer are all
untouched. -/
theorem C10_clearHistory_frame :
    (∀ s : Index.State,
      (Index.clearHistory s).chatHistory = [] ∧
      (Index.clearHistory s).totalPredictions = 0 ∧
      (Index.clearHistory s).currentPrediction = none ∧
      (Index.clearHistory s).analysisActive = s.analysisActive ∧
      (Index.clearHistory s).status = s.status ∧
      (Index.clearHistory s).isConnected = s.isConnected ∧
      (Index.clearHistory s).streamFPS = s.streamFPS ∧
      (Index.clearHistory s).frameCount = s.frameCount ∧
      (Index.clearHistory s).captureInterval = s.captureInterval ∧
      (Index.clearHistory s).errorAlertShown = s.errorAlertShown ∧
      (Index.clearHistory s).isStreaming = s.isStreaming ∧
      (Index.clearHistory s).lastFrameTime = s.lastFrameTime ∧
      (Index.clearHistory s).isMounted = s.isMounted ∧
      (Index.clearHistory s).hasCamera = s.hasCamera ∧
      (Index.clearHistory s).wsReadyState = s.wsReadyState) ∧
    (∀ s : Modal.State,
      (Modal.clearHistory s).chatHistory = [] ∧
      (Modal.clearHistory s).totalPredictions = 0 ∧
      (Modal.clearHistory s).currentPrediction = none ∧
      (Modal.clearHistory s).analysisActive = s.analysisActive ∧
      (Modal.clearHistory s).status = s.status ∧
      (Modal.clearHistory s).isConnected = s.isConnected ∧
      (Modal.clearHistory s).frameCount = s.frameCount ∧
      (Modal.clearHistory s).captureInterval = s.captureInterval ∧
      (Modal.clearHistory s).hasCamera = s.hasCamera ∧
      (Modal.clearHistory s).wsReadyState = s.wsReadyState) :=
  ⟨fun _ => ⟨rfl, rfl, rfl, rfl, rfl, rfl, rfl, rfl, rfl, rfl, rfl, rfl,
    rfl, rfl, rfl⟩,
    fun _ => ⟨rfl, rfl, rfl, rfl, rfl, rfl, rfl, rfl, rfl, rfl⟩⟩
